import Mathlib

/-!
Verification of the documentation configuration module `doc/conf.py`.

The module is a flat sequence of assignments plus one dictionary update
merging metadata into a shared context mapping inherited from the shared
defaults.  We embed each module-level binding as a Lean definition; the
inherited `html_context` mapping and `html_static_path` list are taken as
parameters since they come from the external shared-defaults namespace.
-/

namespace Conf

/-- Values stored in the documentation context mapping: either a plain
string or a tuple of (label, target) string pairs. -/
inductive Value where
  | str (s : String)
  | pairs (ps : List (String × String))
  deriving DecidableEq

/-- `project = u'HoloPlot'` -/
def project : String := "HoloPlot"

/-- `authors = u'Philipp Rudiger'` -/
def authors : String := "Philipp Rudiger"

/-- `copyright = u'2017 ' + authors` -/
def copyright : String := "2017 " ++ authors

/-- `description = 'A high-level plotting API for the PyData ecosystem built on HoloViews'` -/
def description : String :=
  "A high-level plotting API for the PyData ecosystem built on HoloViews"

/-- `version = '0.0.1'` -/
def version : String := "0.0.1"

/-- `release = '0.0.1'` -/
def release : String := "0.0.1"

/-- `html_static_path += ['_static']`, applied to the list inherited from
the shared defaults. -/
def html_static_path (init : List String) : List String :=
  init ++ ["_static"]

/-- `html_theme = 'sphinx_ioam_theme'` -/
def html_theme : String := "sphinx_ioam_theme"

/-- `html_theme_options = {'logo':'pyviz-logo.png', 'favicon':'favicon.ico'}` -/
def html_theme_options : List (String × String) :=
  [("logo", "pyviz-logo.png"), ("favicon", "favicon.ico")]

/-- The navigation tuple `_NAV`. -/
def _NAV : List (String × String) :=
  [("Getting Started", "getting_started/index"),
   ("User Guide", "user_guide/index"),
   ("About", "about")]

/-- The `SOCIAL` tuple written into the context update. -/
def SOCIAL : List (String × String) :=
  [("Gitter", "//gitter.im/ioam/holoviews"),
   ("Github", "//github.com/pyviz/holoplot")]

/-- The key/value entries of the literal dictionary passed to
`html_context.update({...})`, in source order. -/
def contextUpdates : List (String × Value) :=
  [("PROJECT", .str project),
   ("DESCRIPTION", .str description),
   ("AUTHOR", .str authors),
   ("WEBSITE_SERVER", .str "https://pyviz.github.io/holoplot"),
   ("VERSION", .str version),
   ("NAV", .pairs _NAV),
   ("LINKS", .pairs _NAV),
   ("SOCIAL", .pairs SOCIAL)]

/-- The keys written by the update, in source order. -/
def writtenKeys : List String := contextUpdates.map Prod.fst

/-- Semantics of `dict.update`: each (key, value) entry of the argument is
assigned into the mapping in order. -/
def updateMap (m : String → Option Value) (kvs : List (String × Value)) :
    String → Option Value :=
  kvs.foldl (fun acc kv => fun k => if k = kv.1 then some kv.2 else acc k) m

/-- `html_context.update({...})`, applied to the mapping inherited from the
shared defaults. -/
def html_context (init : String → Option Value) : String → Option Value :=
  updateMap init contextUpdates

/-- The module-level attributes exposed to the documentation tool after the
file is loaded. -/
structure ConfModule where
  project : String
  authors : String
  copyright : String
  description : String
  version : String
  release : String
  html_static_path : List String
  html_theme : String
  html_theme_options : List (String × String)
  html_context : String → Option Value

/-- Loading the module: starting from the shared-defaults values of
`html_context` and `html_static_path`, execute every assignment of the
file and collect the exposed attributes. -/
def loadModule (initContext : String → Option Value)
    (initStaticPath : List String) : ConfModule :=
  { project := project
    authors := authors
    copyright := copyright
    description := description
    version := version
    release := release
    html_static_path := html_static_path initStaticPath
    html_theme := html_theme
    html_theme_options := html_theme_options
    html_context := html_context initContext }

/-- Split a character list at every dot, keeping empty groups. -/
def splitDots : List Char → List (List Char)
  | [] => [[]]
  | c :: cs =>
    let rest := splitDots cs
    if c = '.' then [] :: rest
    else
      match rest with
      | [] => [[c]]
      | g :: gs => (c :: g) :: gs

/-- A string of digit groups separated by single dots, each group
non-empty and all-digits. -/
def isDottedNumeric (s : String) : Bool :=
  (splitDots s.toList).all fun g => decide (g.length > 0) && g.all Char.isDigit

end Conf

namespace Conf

/-- C1 counterexample: the navigation tuple `_NAV` has three entries, not
two, so the claim that it is fixed at exactly two entries is false. -/
theorem C1_counterexample : ¬ _NAV.length = 2 := by decide

/-- C1 (amended): the navigation table bound to the context slots `NAV`
and `LINKS` is an ordered sequence of (label, path) pairs fixed at exactly
three entries. -/
theorem C1_nav_three_entries (init : String → Option Value) :
    _NAV.length = 3 ∧
    html_context init "NAV" = some (.pairs _NAV) ∧
    html_context init "LINKS" = some (.pairs _NAV) :=
  ⟨by decide, rfl, rfl⟩

/-- C2 counterexample: the update writes eight keys, not seven. -/
theorem C2_counterexample : writtenKeys.length = 8 ∧ ¬ writtenKeys.length = 7 := by
  decide

/-- C2 (amended): after the update, `html_context` contains all eight
expected keys (PROJECT, DESCRIPTION, AUTHOR, WEBSITE_SERVER, VERSION, NAV,
LINKS, SOCIAL), and each of PROJECT, DESCRIPTION, AUTHOR, VERSION, NAV and
LINKS maps to the value of its corresponding source variable. -/
theorem C2_context_keys (init : String → Option Value) :
    writtenKeys.length = 8 ∧
    (writtenKeys.all fun k => (html_context init k).isSome) = true ∧
    html_context init "PROJECT" = some (.str project) ∧
    html_context init "DESCRIPTION" = some (.str description) ∧
    html_context init "AUTHOR" = some (.str authors) ∧
    html_context init "VERSION" = some (.str version) ∧
    html_context init "NAV" = some (.pairs _NAV) ∧
    html_context init "LINKS" = some (.pairs _NAV) :=
  ⟨by decide, rfl, rfl, rfl, rfl, rfl, rfl, rfl⟩

/-- C3: after loading, the `NAV` and `LINKS` slots of `html_context` hold
the identical tuple value, both equal to `_NAV`. -/
theorem C3_nav_links_identical (init : String → Option Value) :
    html_context init "NAV" = html_context init "LINKS" ∧
    html_context init "NAV" = some (.pairs _NAV) :=
  ⟨rfl, rfl⟩

/-- C4: every element of `_NAV` and of `SOCIAL` is a (label, target) pair
of two non-empty strings. -/
theorem C4_pairs_nonempty :
    (_NAV.all fun p => !p.1.isEmpty && !p.2.isEmpty) = true ∧
    (SOCIAL.all fun p => !p.1.isEmpty && !p.2.isEmpty) = true := by
  decide

/-- C5: `version` and `release` are non-empty strings matching the
dotted-numeric pattern (digit groups separated by dots). -/
theorem C5_version_release_dotted :
    version ≠ "" ∧ isDottedNumeric version = true ∧
    release ≠ "" ∧ isDottedNumeric release = true := by
  refine ⟨by decide, by decide, by decide, by decide⟩

/-- C6: `project` is "HoloPlot" and `version` is "0.0.1", and after
loading, `html_context` maps PROJECT to "HoloPlot" and VERSION to
"0.0.1". -/
theorem C6_project_version_scenario (init : String → Option Value) :
    project = "HoloPlot" ∧ version = "0.0.1" ∧
    html_context init "PROJECT" = some (.str "HoloPlot") ∧
    html_context init "VERSION" = some (.str "0.0.1") :=
  ⟨rfl, rfl, rfl, rfl⟩

/-- C7: the update changes only the eight keys it writes; every other key
of the inherited `html_context` keeps its prior value. -/
theorem C7_frame (init : String → Option Value) (k : String)
    (h : k ∉ writtenKeys) : html_context init k = init k := by
  simp only [writtenKeys, contextUpdates, List.map, List.mem_cons,
    List.not_mem_nil, or_false, not_or] at h
  obtain ⟨h1, h2, h3, h4, h5, h6, h7, h8⟩ := h
  simp [html_context, updateMap, contextUpdates, List.foldl,
    h1, h2, h3, h4, h5, h6, h7, h8]

/-- C7 witness: the key "body" is not among the written keys and keeps
its prior value across the update. -/
theorem C7_frame_witness :
    "body" ∉ writtenKeys ∧
    html_context (fun _ => some (.str "x")) "body" =
      (fun (_ : String) => some (.str "x")) "body" :=
  ⟨by decide, C7_frame (fun _ => some (.str "x")) "body" (by decide)⟩

/-- C8: after loading, `html_static_path` equals the inherited list with
the single element "_static" appended; all prior elements and their order
are preserved. -/
theorem C8_static_path_append (init : List String) :
    html_static_path init = init ++ ["_static"] ∧
    (html_static_path init).take init.length = init ∧
    (html_static_path init).drop init.length = ["_static"] :=
  ⟨rfl, by simp [html_static_path], by simp [html_static_path]⟩

/-- C9: loading the module is deterministic: equal shared-defaults inputs
produce equal values of every exposed attribute. -/
theorem C9_deterministic (ic₁ ic₂ : String → Option Value)
    (sp₁ sp₂ : List String) (hc : ic₁ = ic₂) (hs : sp₁ = sp₂) :
    loadModule ic₁ sp₁ = loadModule ic₂ sp₂ := by
  rw [hc, hs]

/-- C9 witness: two loads from the empty shared defaults agree. -/
theorem C9_deterministic_witness :
    ((fun (_ : String) => (none : Option Value)) =
      (fun (_ : String) => (none : Option Value))) ∧
    loadModule (fun _ => none) [] = loadModule (fun _ => none) [] :=
  ⟨rfl, C9_deterministic (fun _ => none) (fun _ => none) [] [] rfl rfl⟩

/-- C10: `copyright` is the concatenation "2017 " ++ authors, i.e.
"2017 Philipp Rudiger", and `version` equals `release`. -/
theorem C10_copyright_version :
    copyright = "2017 " ++ authors ∧
    copyright = "2017 Philipp Rudiger" ∧
    version = release :=
  ⟨rfl, rfl, rfl⟩

end Conf
